import Mathlib

/-!
# Verification of `psyvern/hyprland-utils` (`src/main.rs`)

Shallow embedding of the behaviourally relevant parts of `src/main.rs`:

* the geometry text codec (`Geometry`, `FromStr for Geometry`, `Display for
  Geometry`);
* the capture source selectors (`grab_region`, `grab_window`, `grab_display`),
  modelled as pure functions of the external tool's textual output (for the
  interactive selectors) or of the queried monitor (for the display selector);
* the floating-window placement (`toggle_float`), modelled as a pure function
  from the queried compositor state to the list of dispatched commands;
* the screenshot orchestration (`screenshot`), modelled as a pure function
  from the capture mode and the selector's result to the list of performed
  side effects and the returned value.

Modelling conventions:

* Rust strings (`&str`, `String`) are modelled as `List Char`;
* Rust `f32` arithmetic is modelled over `ℚ` (every numeric input occurring
  here — `u16` monitor sizes, `u16` reserved insets, small constants — is
  exactly representable in `f32`, and the clamping/halving arithmetic on them
  is exact);
* Rust integer parsing (`str::parse::<i32>/<u32>`) is modelled with explicit
  range checks, and the saturating numeric casts (`as i16`, `as u32`) are
  modelled with explicit clamping;
* compositor IPC calls are modelled as always succeeding; the embedding
  records them as elements of an effect trace.
-/

namespace HyprlandUtils

/-! ## Decimal digits

Rust renders integers (`Display for i32/u32`) as plain decimal digits with a
leading `-` for negative values, and `str::parse` accepts an optional sign
followed by one or more ASCII digits.  We model both ends at the character
level. -/

/-- Value of a list of ASCII digit characters read left to right. -/
def ofDigits (l : List Char) : Nat :=
  l.foldl (fun a c => 10 * a + (c.toNat - 48)) 0

/-- Decimal digit characters of `n`, most significant first, with explicit
recursion fuel (any fuel above `n` computes the digits; the fuel keeps the
recursion structural so that concrete instances reduce in the kernel). -/
def natDigitsAux : Nat → Nat → List Char
  | 0, _ => []
  | fuel + 1, n =>
    if n < 10 then [Nat.digitChar n]
    else natDigitsAux fuel (n / 10) ++ [Nat.digitChar (n % 10)]

/-- Decimal digit characters of `n`, most significant first (the rendering
used by Rust's `Display` for unsigned integers). -/
def natDigits (n : Nat) : List Char := natDigitsAux (n + 1) n

/-- Decimal rendering of an integer (the rendering used by Rust's `Display`
for `i32`): a leading `-` for negative values, plain digits otherwise. -/
def intRepr : Int → List Char
  | .ofNat n => natDigits n
  | .negSucc m => '-' :: natDigits (m + 1)

/-- `str::parse` digit-run parsing: a nonempty run of ASCII digits. -/
def parseDigits (l : List Char) : Option Nat :=
  if !l.isEmpty && l.all Char.isDigit then some (ofDigits l) else none

/-- Model of Rust `str::parse::<i32>`: optional `-`/`+` sign, then a nonempty
digit run, rejected on overflow of the `i32` range. -/
def parseI32 (l : List Char) : Option Int :=
  if l.head? = some '-' then
    match parseDigits l.tail with
    | some n => if n ≤ 2147483648 then some (-(n : Int)) else none
    | none => none
  else
    let digits := if l.head? = some '+' then l.tail else l
    match parseDigits digits with
    | some n => if n ≤ 2147483647 then some ((n : Int)) else none
    | none => none

/-- Model of Rust `str::parse::<u32>`: optional `+` sign (a `-` sign is
rejected), then a nonempty digit run, rejected on overflow of `u32`. -/
def parseU32 (l : List Char) : Option Nat :=
  let digits := if l.head? = some '+' then l.tail else l
  match parseDigits digits with
  | some n => if n ≤ 4294967295 then some n else none
  | none => none

/-! ## The geometry codec (`struct Geometry`, lines 139–186) -/

/-- `struct Geometry { x: i32, y: i32, width: u32, height: u32 }`. -/
structure Geometry where
  x : Int
  y : Int
  width : Nat
  height : Nat
deriving DecidableEq, Repr

/-- `enum ParseGeometryError { WrongArgumentsCount, ParseArgument(usize) }`. -/
inductive ParseGeometryError where
  | WrongArgumentsCount : ParseGeometryError
  | ParseArgument : Nat → ParseGeometryError
deriving DecidableEq, Repr

/-- Worker for the `split_whitespace` model: `acc` holds the reversed
characters of the word currently being read. -/
def splitWsAux : List Char → List Char → List (List Char)
  | [], acc => if acc.isEmpty then [] else [acc.reverse]
  | c :: cs, acc =>
    if c.isWhitespace then
      if acc.isEmpty then splitWsAux cs [] else acc.reverse :: splitWsAux cs []
    else splitWsAux cs (c :: acc)

/-- Model of Rust `split_whitespace`: maximal runs of non-whitespace
characters, with whitespace runs acting as separators and never producing
empty fields. -/
def splitWs (l : List Char) : List (List Char) := splitWsAux l []

/-- Field phase of `Geometry::from_str` (lines 155–179): the `let Some([x, y,
w, h]) = …collect_array() else` arity check followed by the four sequential
`parse` calls, each mapping its error to `ParseArgument(index)`. -/
def parseFields : List (List Char) → Except ParseGeometryError Geometry
  | [xs, ys, ws, hs] =>
    match parseI32 xs with
    | none => .error (.ParseArgument 0)
    | some x =>
      match parseI32 ys with
      | none => .error (.ParseArgument 1)
      | some y =>
        match parseU32 ws with
        | none => .error (.ParseArgument 2)
        | some w =>
          match parseU32 hs with
          | none => .error (.ParseArgument 3)
          | some h => .ok ⟨x, y, w, h⟩
  | _ => .error .WrongArgumentsCount

/-- `Geometry::from_str` (lines 152–180): split the input on whitespace,
require exactly four fields, and parse them as `i32, i32, u32, u32`. -/
def from_str (s : List Char) : Except ParseGeometryError Geometry :=
  parseFields (splitWs s)

/-- `Display for Geometry` (lines 182–186): `write!(f, "{},{} {}x{}", …)`,
the canonical `x,y WxH` layout. -/
def format (g : Geometry) : List Char :=
  intRepr g.x ++
    (',' :: (intRepr g.y ++ (' ' :: (natDigits g.width ++
      ('x' :: natDigits g.height)))))

/-- The space-separated `x y w h` layout: the output format string
`"%x %y %w %h"` this program passes to the selection tool at both call sites
(lines 197 and 252), i.e. the layout `from_str` actually consumes. -/
def formatSpaceSep (g : Geometry) : List Char :=
  intRepr g.x ++
    (' ' :: (intRepr g.y ++ (' ' :: (natDigits g.width ++
      (' ' :: natDigits g.height)))))

/-! ## Capture source selectors (lines 188–276)

`grab_region` and `grab_window` run the interactive selection tool and then
process its standard output; we model that processing as a function of the
tool's output text.  Empty output means the user cancelled (`Ok(None)`); a
parse failure makes the Rust code panic on `.unwrap()`, modelled as the
`.error` branch of the result. -/

/-- `grab_region` (lines 188–223), as a function of the selection tool's
standard output: empty output is cancellation; otherwise the output is parsed
and the resulting rectangle is kept only if `width > 2 && height > 2`, shrunk
by one pixel on every side; degenerate rectangles become `None`. -/
def grab_region (output : List Char) : Except ParseGeometryError (Option Geometry) :=
  if output.isEmpty then .ok none
  else
    match from_str output with
    | .error e => .error e
    | .ok region =>
      if 2 < region.width ∧ 2 < region.height then
        .ok (some ⟨region.x + 1, region.y + 1, region.width - 2, region.height - 2⟩)
      else .ok none

/-- `grab_window` (lines 237–276), as a function of the selection tool's
standard output: empty output is cancellation; otherwise the parsed rectangle
is returned as is — no degenerate filter and no shrinking. -/
def grab_window (output : List Char) : Except ParseGeometryError (Option Geometry) :=
  if output.isEmpty then .ok none
  else
    match from_str output with
    | .error e => .error e
    | .ok region => .ok (some region)

/-- Monitor state as queried from the compositor (`Monitor::get_active()`):
physical position (`i32`), physical size (`u16`), scale (`f32`, modelled as
`ℚ`), and the four reserved insets `reserved.0 … reserved.3` (`u16`). -/
structure MonitorState where
  x : Int
  y : Int
  width : Nat
  height : Nat
  scale : ℚ
  reserved0 : Nat
  reserved1 : Nat
  reserved2 : Nat
  reserved3 : Nat
deriving DecidableEq, Repr

/-- Rust `as u32` on a rounded nonnegative-or-saturated value: clamp into
`0 … 4294967295` (float-to-int `as` casts saturate). -/
def satU32 (n : Int) : Nat := (min n 4294967295).toNat

/-- Kernel-computable floor of a rational (equal to `⌊q⌋`, see
`ratFloor_eq_floor`). -/
def ratFloor (q : ℚ) : Int := q.num / (q.den : Int)

/-- Model of `f32::round`: round half away from zero. -/
def roundQ (q : ℚ) : Int :=
  if 0 ≤ q then ratFloor (q + 1 / 2) else -ratFloor (-q + 1 / 2)

/-- `grab_display` (lines 225–235): always `Some`, position taken unscaled
from the monitor, size `(physical / scale).round() as u32`. -/
def grab_display (m : MonitorState) : Option Geometry :=
  some ⟨m.x, m.y,
    satU32 (roundQ ((m.width : ℚ) / m.scale)),
    satU32 (roundQ ((m.height : ℚ) / m.scale))⟩

/-! ## Floating-window placement (`toggle_float`, lines 61–115) -/

/-- `let border = 4.0` (line 62). -/
def border : ℚ := 4

/-- `let gaps = (20.0, 10.0, 20.0, 20.0)` (line 63), field 0. -/
def gaps0 : ℚ := 20

/-- `gaps.1` (line 63). -/
def gaps1 : ℚ := 10

/-- `gaps.2` (line 63). -/
def gaps2 : ℚ := 20

/-- `gaps.3` (line 63). -/
def gaps3 : ℚ := 20

/-- Logical monitor width `monitor.width as f32 / scale` (line 72). -/
def logicalW (m : MonitorState) : ℚ := (m.width : ℚ) / m.scale

/-- Logical monitor height `monitor.height as f32 / scale` (line 73). -/
def logicalH (m : MonitorState) : ℚ := (m.height : ℚ) / m.scale

/-- The cursor-anchored clamp for x (lines 96–98):
`(position.x as f32).min(width - width/4 - gaps.2 - reserved.2 - border)
.max(width/4 + gaps.0 + reserved.0 + border)`. -/
def clampX (m : MonitorState) (cursorX : Int) : ℚ :=
  max (logicalW m / 4 + gaps0 + (m.reserved0 : ℚ) + border)
    (min (logicalW m - logicalW m / 4 - gaps2 - (m.reserved2 : ℚ) - border)
      (cursorX : ℚ))

/-- The cursor-anchored clamp for y (lines 99–101):
`(position.y as f32).min(height - height/4 - gaps.3 - reserved.3 - border)
.max(height/4 + gaps.1 + reserved.1 + border)`. -/
def clampY (m : MonitorState) (cursorY : Int) : ℚ :=
  max (logicalH m / 4 + gaps1 + (m.reserved1 : ℚ) + border)
    (min (logicalH m - logicalH m / 4 - gaps3 - (m.reserved3 : ℚ) - border)
      (cursorY : ℚ))

/-- Rust `as i16` on an `f32`: truncate toward zero, saturating into the
`i16` range. -/
def toI16 (q : ℚ) : Int :=
  max (-32768) (min 32767 (if 0 ≤ q then ratFloor q else -ratFloor (-q)))

/-- The part of the queried active window (`Client::get_active()`) that
`toggle_float` consults. -/
structure Client where
  floating : Bool
deriving DecidableEq, Repr

/-- A compositor dispatch issued by `toggle_float`. -/
inductive Dispatch where
  | toggleFloating : Dispatch
  | resizeActive : Int → Int → Dispatch
  | moveActive : Int → Int → Dispatch
deriving DecidableEq, Repr

/-- `toggle_float` (lines 61–115) as the list of dispatches it issues, as a
function of the queried compositor state: no active window is a no-op; an
already-floating window gets a single `ToggleFloating`; otherwise the window
is toggled, resized to half the logical monitor size and moved — to the
monitor quarter point when `center` is set, else to the clamped
cursor-anchored position shifted back by a quarter of the logical size. -/
def toggle_float (center : Bool) (active : Option Client) (m : MonitorState)
    (cursor : Int × Int) : List Dispatch :=
  match active with
  | none => []
  | some w =>
    if w.floating then [.toggleFloating]
    else if center then
      [.toggleFloating,
       .resizeActive (toI16 (logicalW m / 2)) (toI16 (logicalH m / 2)),
       .moveActive (toI16 (logicalW m / 4)) (toI16 (logicalH m / 4))]
    else
      [.toggleFloating,
       .resizeActive (toI16 (logicalW m / 2)) (toI16 (logicalH m / 2)),
       .moveActive (toI16 (clampX m cursor.1 - logicalW m / 4))
         (toI16 (clampY m cursor.2 - logicalH m / 4))]

/-! ## Screenshot orchestration (`screenshot`, lines 300–356) -/

/-- `enum ScreenshotMode { Region, Window, Display }`. -/
inductive ScreenshotMode where
  | region : ScreenshotMode
  | window : ScreenshotMode
  | display : ScreenshotMode
deriving DecidableEq, Repr

/-- A side effect performed by `screenshot` / `save_geometry`: a
`Keyword::set`, a `submap` dispatch, the capture tool (`grim`), the clipboard
tool (`wl-copy`), the config reload, or the desktop notification. -/
inductive Effect where
  | setKeyword : String → Nat → Effect
  | submap : String → Effect
  | runGrim : Geometry → Effect
  | runWlCopy : Effect
  | notify : Effect
  | reloadConfig : Effect
deriving DecidableEq, Repr

/-- `save_geometry` (lines 278–298): run `grim` on the geometry, then pipe
the file into `wl-copy`. -/
def save_geometry (g : Geometry) : List Effect :=
  [.runGrim g, .runWlCopy]

/-- `screenshot` (lines 300–356) as a function of the capture mode and of the
selector's result (`None` = the user cancelled), returning the effect trace
and the function's return value.  The IPC calls themselves are modelled as
succeeding, so the returned value records whether the cancellation path
itself produces an error — it does not: the function ends in `Ok(())`. -/
def screenshot (mode : ScreenshotMode) (sel : Option Geometry) :
    List Effect × Except Empty Unit :=
  let pre : List Effect :=
    match mode with
    | .window =>
      [.setKeyword "general:col.inactive_border" 4294967295,
       .setKeyword "general:col.active_border" 4294967295,
       .setKeyword "decoration:rounding" 0,
       .setKeyword "decoration:dim_inactive" 0,
       .setKeyword "decoration:inactive_opacity" 1,
       .submap "empty"]
    | _ => []
  let save : List Effect :=
    match sel with
    | some g => save_geometry g
    | none => []
  let post : List Effect :=
    if mode = .window then [.reloadConfig, .submap "reset"] else []
  let notif : List Effect := if sel.isSome then [.notify] else []
  (pre ++ save ++ post ++ notif, .ok ())

deriving instance DecidableEq for Except

/-! ## Lemmas: decimal digits and numeric parsing -/

theorem ofDigits_append_digit (l : List Char) (c : Char) :
    ofDigits (l ++ [c]) = 10 * ofDigits l + (c.toNat - 48) := by
  simp [ofDigits, List.foldl_append]

theorem digitChar_isDigit (d : Nat) (h : d < 10) :
    (Nat.digitChar d).isDigit = true := by
  interval_cases d <;> decide

theorem digitChar_toNat (d : Nat) (h : d < 10) :
    (Nat.digitChar d).toNat - 48 = d := by
  interval_cases d <;> decide

theorem natDigitsAux_ne_nil (fuel n : Nat) (h : fuel ≠ 0) :
    natDigitsAux fuel n ≠ [] := by
  match fuel with
  | 0 => exact absurd rfl h
  | fuel + 1 =>
    rw [natDigitsAux]
    by_cases h10 : n < 10 <;> simp [h10]

theorem natDigitsAux_all_digit (fuel n : Nat) :
    ∀ c ∈ natDigitsAux fuel n, c.isDigit = true := by
  induction fuel generalizing n with
  | zero => simp [natDigitsAux]
  | succ fuel ih =>
    rw [natDigitsAux]
    by_cases h10 : n < 10
    · simp only [h10, if_true, List.mem_singleton]
      rintro c rfl
      exact digitChar_isDigit n h10
    · simp only [h10, if_false, List.mem_append, List.mem_singleton]
      rintro c (hc | rfl)
      · exact ih _ c hc
      · exact digitChar_isDigit _ (Nat.mod_lt n (by omega))

theorem ofDigits_natDigitsAux (fuel n : Nat) (h : n < fuel) :
    ofDigits (natDigitsAux fuel n) = n := by
  induction fuel generalizing n with
  | zero => omega
  | succ fuel ih =>
    rw [natDigitsAux]
    by_cases h10 : n < 10
    · simp only [h10, if_true]
      have := digitChar_toNat n h10
      simp only [ofDigits, List.foldl_cons, List.foldl_nil]
      omega
    · simp only [h10, if_false, ofDigits_append_digit]
      rw [ih (n / 10) (by omega), digitChar_toNat _ (Nat.mod_lt n (by omega))]
      omega

theorem natDigits_ne_nil (n : Nat) : natDigits n ≠ [] :=
  natDigitsAux_ne_nil (n + 1) n (by omega)

theorem natDigits_all_digit (n : Nat) : ∀ c ∈ natDigits n, c.isDigit = true :=
  natDigitsAux_all_digit (n + 1) n

theorem ofDigits_natDigits (n : Nat) : ofDigits (natDigits n) = n :=
  ofDigits_natDigitsAux (n + 1) n (by omega)

theorem digit_not_ws (c : Char) (h : c.isDigit = true) :
    c.isWhitespace = false := by
  simp only [Char.isWhitespace, Bool.or_eq_false_iff, decide_eq_false_iff_not]
  refine ⟨⟨⟨fun hc => ?_, fun hc => ?_⟩, fun hc => ?_⟩, fun hc => ?_⟩ <;>
    (subst hc; exact absurd h (by decide))

theorem parseDigits_natDigits (n : Nat) : parseDigits (natDigits n) = some n := by
  have h1 : (natDigits n).isEmpty = false := by
    cases h : natDigits n with
    | nil => exact absurd h (natDigits_ne_nil n)
    | cons c cs => rfl
  have h2 : (natDigits n).all Char.isDigit = true :=
    List.all_eq_true.mpr (natDigits_all_digit n)
  simp [parseDigits, h1, h2, ofDigits_natDigits]

theorem natDigits_head_not_sign (n : Nat) :
    (natDigits n).head? ≠ some '-' ∧ (natDigits n).head? ≠ some '+' := by
  cases h : natDigits n with
  | nil => exact absurd h (natDigits_ne_nil n)
  | cons c cs =>
    have hc : c.isDigit = true := by
      have := natDigits_all_digit n
      rw [h] at this
      exact this c (by simp)
    constructor <;> (simp only [List.head?_cons, ne_eq, Option.some.injEq]
                     rintro rfl; exact absurd hc (by decide))

theorem parseU32_natDigits (n : Nat) (h : n ≤ 4294967295) :
    parseU32 (natDigits n) = some n := by
  rw [parseU32]
  simp only [(natDigits_head_not_sign n).2, if_false, parseDigits_natDigits, h,
    if_true]

theorem parseI32_intRepr (x : Int) (h1 : -2147483648 ≤ x)
    (h2 : x ≤ 2147483647) : parseI32 (intRepr x) = some x := by
  match x with
  | .ofNat n =>
    rw [intRepr, parseI32]
    have hn : n ≤ 2147483647 := by
      rw [Int.ofNat_eq_natCast] at h2
      exact_mod_cast h2
    simp only [(natDigits_head_not_sign n).1, if_false,
      (natDigits_head_not_sign n).2, parseDigits_natDigits, hn, if_true,
      Int.ofNat_eq_natCast]
  | .negSucc m =>
    rw [intRepr, parseI32]
    have hm : m + 1 ≤ 2147483648 := by
      rw [Int.negSucc_eq] at h1
      omega
    simp only [List.head?_cons, if_true, List.tail_cons, parseDigits_natDigits,
      hm, Option.some.injEq, reduceIte, Int.negSucc_eq]
    push_cast
    ring

/-! ## Lemmas: whitespace splitting -/

theorem splitWsAux_word (w : List Char) (hw : ∀ c ∈ w, c.isWhitespace = false) :
    ∀ (rest acc : List Char),
      splitWsAux (w ++ rest) acc = splitWsAux rest (w.reverse ++ acc) := by
  induction w with
  | nil => intro rest acc; simp
  | cons c w' ih =>
    intro rest acc
    have hc : c.isWhitespace = false := hw c (by simp)
    rw [List.cons_append, splitWsAux, hc]
    simp only [Bool.false_eq_true, if_false]
    rw [ih (fun d hd => hw d (by simp [hd])) rest (c :: acc)]
    simp [List.append_assoc]

theorem reverse_isEmpty_false {w : List Char} (hne : w ≠ []) :
    w.reverse.isEmpty = false := by
  cases hw' : w.reverse with
  | nil => exact absurd (List.reverse_eq_nil_iff.mp hw') hne
  | cons a as => rfl

theorem splitWs_append_word (w r : List Char) (hne : w ≠ [])
    (hw : ∀ c ∈ w, c.isWhitespace = false) :
    splitWs (w ++ ' ' :: r) = w :: splitWs r := by
  rw [splitWs, splitWsAux_word w hw (' ' :: r) [], List.append_nil, splitWsAux]
  simp only [show (' ').isWhitespace = true from rfl, if_true,
    reverse_isEmpty_false hne, Bool.false_eq_true, if_false,
    List.reverse_reverse]
  rw [splitWs]

theorem splitWs_word (w : List Char) (hne : w ≠ [])
    (hw : ∀ c ∈ w, c.isWhitespace = false) : splitWs w = [w] := by
  conv_lhs => rw [show w = w ++ [] from (List.append_nil w).symm]
  rw [splitWs, splitWsAux_word w hw [] [], List.append_nil, splitWsAux]
  simp only [reverse_isEmpty_false hne, Bool.false_eq_true, if_false,
    List.reverse_reverse]

/-! ## Lemmas: field parsing -/

theorem parseFields_ok {a b c d : List Char} {x y : Int} {w h : Nat}
    (ha : parseI32 a = some x) (hb : parseI32 b = some y)
    (hc : parseU32 c = some w) (hd : parseU32 d = some h) :
    parseFields [a, b, c, d] = .ok ⟨x, y, w, h⟩ := by
  simp [parseFields, ha, hb, hc, hd]

theorem parseFields_wrong_count {l : List (List Char)} (h : l.length ≠ 4) :
    parseFields l = .error .WrongArgumentsCount := by
  match l with
  | [] => rfl
  | [_] => rfl
  | [_, _] => rfl
  | [_, _, _] => rfl
  | [_, _, _, _] => simp at h
  | _ :: _ :: _ :: _ :: _ :: _ => rfl

/-! ## Lemmas: the rendered numbers are single whitespace-free words -/

theorem natDigits_not_ws (n : Nat) :
    ∀ c ∈ natDigits n, c.isWhitespace = false :=
  fun c hc => digit_not_ws c (natDigits_all_digit n c hc)

theorem intRepr_ne_nil (x : Int) : intRepr x ≠ [] := by
  match x with
  | .ofNat n => exact natDigits_ne_nil n
  | .negSucc m => simp [intRepr]

theorem intRepr_not_ws (x : Int) : ∀ c ∈ intRepr x, c.isWhitespace = false := by
  match x with
  | .ofNat n => exact natDigits_not_ws n
  | .negSucc m =>
    intro c hc
    rw [intRepr, List.mem_cons] at hc
    rcases hc with rfl | hc
    · rfl
    · exact natDigits_not_ws _ c hc

/-- Parsing the space-separated `x y w h` rendering of an in-range rectangle
recovers it exactly. -/
theorem from_str_formatSpaceSep (g : Geometry)
    (hx1 : -2147483648 ≤ g.x) (hx2 : g.x ≤ 2147483647)
    (hy1 : -2147483648 ≤ g.y) (hy2 : g.y ≤ 2147483647)
    (hw : g.width ≤ 4294967295) (hh : g.height ≤ 4294967295) :
    from_str (formatSpaceSep g) = .ok g := by
  rw [from_str, formatSpaceSep,
    splitWs_append_word _ _ (intRepr_ne_nil g.x) (intRepr_not_ws g.x),
    splitWs_append_word _ _ (intRepr_ne_nil g.y) (intRepr_not_ws g.y),
    splitWs_append_word _ _ (natDigits_ne_nil g.width) (natDigits_not_ws g.width),
    splitWs_word _ (natDigits_ne_nil g.height) (natDigits_not_ws g.height),
    parseFields_ok (parseI32_intRepr g.x hx1 hx2) (parseI32_intRepr g.y hy1 hy2)
      (parseU32_natDigits g.width hw) (parseU32_natDigits g.height hh)]

/-- The canonical `x,y WxH` rendering always splits into exactly two
whitespace-separated fields, so parsing it always fails the arity check. -/
theorem from_str_format (g : Geometry) :
    from_str (format g) = .error .WrongArgumentsCount := by
  have hshape : format g =
      (intRepr g.x ++ ',' :: intRepr g.y) ++ ' ' ::
        (natDigits g.width ++ 'x' :: natDigits g.height) := by
    simp [format, List.append_assoc]
  have h1ne : intRepr g.x ++ ',' :: intRepr g.y ≠ [] := by simp
  have h1ws : ∀ c ∈ intRepr g.x ++ ',' :: intRepr g.y, c.isWhitespace = false := by
    intro c hc
    rw [List.mem_append, List.mem_cons] at hc
    rcases hc with hc | rfl | hc
    · exact intRepr_not_ws g.x c hc
    · rfl
    · exact intRepr_not_ws g.y c hc
  have h2ne : natDigits g.width ++ 'x' :: natDigits g.height ≠ [] := by simp
  have h2ws : ∀ c ∈ natDigits g.width ++ 'x' :: natDigits g.height,
      c.isWhitespace = false := by
    intro c hc
    rw [List.mem_append, List.mem_cons] at hc
    rcases hc with hc | rfl | hc
    · exact natDigits_not_ws g.width c hc
    · rfl
    · exact natDigits_not_ws g.height c hc
  rw [from_str, hshape, splitWs_append_word _ _ h1ne h1ws,
    splitWs_word _ h2ne h2ws]
  rfl

/-! ## Helper predicates and small facts used by the claim theorems -/

theorem isEmpty_false_of_ne_nil {w : List Char} (h : w ≠ []) :
    w.isEmpty = false := by
  cases w with
  | nil => exact absurd rfl h
  | cons a as => rfl

/-- Whether an effect invokes the rasterization or clipboard subprocess. -/
def Effect.isCapture : Effect → Bool
  | .runGrim _ => true
  | .runWlCopy => true
  | _ => false

/-- Whether an effect shows the desktop notification. -/
def Effect.isNotify : Effect → Bool
  | .notify => true
  | _ => false

theorem ratFloor_eq_floor (q : ℚ) : ratFloor q = ⌊q⌋ := Rat.floor_def.symm

theorem roundQ_nonneg_eq (q : ℚ) (hq : 0 ≤ q) : roundQ q = round q := by
  rw [roundQ, if_pos hq, ratFloor_eq_floor, round_eq]

theorem roundQ_nonneg (q : ℚ) (hq : 0 ≤ q) : 0 ≤ roundQ q := by
  rw [roundQ_nonneg_eq q hq, round_eq]
  exact Int.floor_nonneg.mpr (by linarith)

theorem satU32_of_le {n : Int} (h : n ≤ 4294967295) : satU32 n = n.toNat := by
  rw [satU32, min_eq_left h]

/-! ## Claim C1 — geometry codec round trip -/

/-- Claim C1, counterexample: the round-trip law `parse(format(r)) == r`
fails at the rectangle `(0, 0, 5x5)` — `format` emits `"0,0 5x5"`, which has
only two whitespace-separated fields, so `from_str` rejects it with
`WrongArgumentsCount` instead of returning the rectangle. -/
theorem C1_format_roundtrip_cex :
    from_str (format ⟨0, 0, 5, 5⟩) ≠ .ok ⟨0, 0, 5, 5⟩ ∧
    from_str (format ⟨0, 0, 5, 5⟩) = .error .WrongArgumentsCount := by
  decide

/-- Claim C1, amended: for every rectangle representable in `i32`/`u32`
fields, parsing the space-separated `x y w h` rendering (the layout the
codec's call sites actually feed it, via the selection tool's
`"%x %y %w %h"` format) recovers the rectangle exactly, while parsing the
canonical `x,y WxH` rendering of `format` always fails with
`WrongArgumentsCount`: the parser supports only the whitespace-separated
layout, not both layouts. -/
theorem C1_roundtrip_amended (g : Geometry)
    (hx1 : -2147483648 ≤ g.x) (hx2 : g.x ≤ 2147483647)
    (hy1 : -2147483648 ≤ g.y) (hy2 : g.y ≤ 2147483647)
    (hw : g.width ≤ 4294967295) (hh : g.height ≤ 4294967295) :
    from_str (formatSpaceSep g) = .ok g ∧
    from_str (format g) = .error .WrongArgumentsCount :=
  ⟨from_str_formatSpaceSep g hx1 hx2 hy1 hy2 hw hh, from_str_format g⟩

/-- Witness for C1's amended theorem at the rectangle `(-3, 7, 5x6)`. -/
theorem C1_roundtrip_amended_witness :
    from_str (formatSpaceSep ⟨-3, 7, 5, 6⟩) = .ok ⟨-3, 7, 5, 6⟩ ∧
    from_str (format ⟨-3, 7, 5, 6⟩) = .error .WrongArgumentsCount :=
  C1_roundtrip_amended ⟨-3, 7, 5, 6⟩ (by decide) (by decide) (by decide)
    (by decide) (by decide) (by decide)

/-! ## Claim C2 — degenerate-rectangle filter -/

/-- Claim C2, counterexample: the window selector does **not** discard
degenerate rectangles — on tool output `"5 5 1 1"` (width 1 ≤ 2, height
1 ≤ 2) it returns the rectangle, not the cancellation result `None`. -/
theorem C2_window_unfiltered_cex :
    grab_window ("5 5 1 1".data) = .ok (some ⟨5, 5, 1, 1⟩) ∧
    grab_window ("5 5 1 1".data) ≠ .ok none := by
  decide

/-- Claim C2, amended: only the **region** selector applies the degenerate
filter — a parsed rectangle with width ≤ 2 or height ≤ 2 becomes the
cancellation result `None`; the **window** selector returns the parsed
rectangle unfiltered, whatever its size. -/
theorem C2_degenerate_filter_amended :
    (∀ (out : List Char) (g : Geometry), out ≠ [] → from_str out = .ok g →
      g.width ≤ 2 ∨ g.height ≤ 2 → grab_region out = .ok none) ∧
    (∀ (out : List Char) (g : Geometry), out ≠ [] → from_str out = .ok g →
      grab_window out = .ok (some g)) := by
  constructor
  · intro out g hne hparse hdeg
    simp only [grab_region, isEmpty_false_of_ne_nil hne, Bool.false_eq_true,
      if_false, hparse]
    rw [if_neg (by omega)]
  · intro out g hne hparse
    simp only [grab_window, isEmpty_false_of_ne_nil hne, Bool.false_eq_true,
      if_false, hparse]

/-- Witness for C2's amended theorem on the degenerate output `"0 0 1 1"`. -/
theorem C2_degenerate_filter_amended_witness :
    grab_region ("0 0 1 1".data) = .ok none ∧
    grab_window ("0 0 1 1".data) = .ok (some ⟨0, 0, 1, 1⟩) :=
  ⟨C2_degenerate_filter_amended.1 ("0 0 1 1".data) ⟨0, 0, 1, 1⟩ (by decide)
      (by decide) (Or.inl (by decide)),
   C2_degenerate_filter_amended.2 ("0 0 1 1".data) ⟨0, 0, 1, 1⟩ (by decide)
      (by decide)⟩

/-! ## Claim C3 — floating-placement bounds guarantee -/

/-- Claim C3, counterexample: the bounds guarantee fails for *arbitrary*
reserved insets — on a 1920×1080 scale-1 monitor with reserved insets
`(1000, 0, 1000, 0)` and the cursor at `(0, 0)` (inside the monitor), the
clamped window x-position `clampX - width/4 = 1024` exceeds the claimed
upper bound `logical_width - half_width - gap - reserved - border = -64`:
the two clamp bounds have crossed and `max` is applied last. -/
theorem C3_bounds_cex :
    (0 : ℚ) < (⟨0, 0, 1920, 1080, 1, 1000, 0, 1000, 0⟩ : MonitorState).scale ∧
    (0 : Int) ≤ 0 ∧
    ((0 : Int) : ℚ) < logicalW ⟨0, 0, 1920, 1080, 1, 1000, 0, 1000, 0⟩ ∧
    ¬ (clampX ⟨0, 0, 1920, 1080, 1, 1000, 0, 1000, 0⟩ 0 -
        logicalW ⟨0, 0, 1920, 1080, 1, 1000, 0, 1000, 0⟩ / 4 ≤
      logicalW ⟨0, 0, 1920, 1080, 1, 1000, 0, 1000, 0⟩ -
        logicalW ⟨0, 0, 1920, 1080, 1, 1000, 0, 1000, 0⟩ / 2 -
        gaps2 - ((1000 : Nat) : ℚ) - border) := by
  refine ⟨by norm_num, le_refl 0, by norm_num [logicalW], ?_⟩
  norm_num [clampX, logicalW, gaps0, gaps2, border, max_def, min_def]

/-- Claim C3, amended: for every monitor with positive scale and every
cursor position inside the monitor, **provided the safe interval is
nonempty on each axis** (the lower clamp bound does not exceed the upper
clamp bound, i.e. half the logical size is at least the two gaps, the two
reserved insets and twice the border of that axis), the cursor-anchored
window position stays within
`[reserved + gap + border, logical_size − reserved − gap − border −
half_size]` on each axis. -/
theorem C3_clamp_bounds_amended (m : MonitorState) (cx cy : Int)
    (_hs : 0 < m.scale)
    (_hcx0 : 0 ≤ cx) (_hcxw : (cx : ℚ) < logicalW m)
    (_hcy0 : 0 ≤ cy) (_hcyh : (cy : ℚ) < logicalH m)
    (hx : logicalW m / 4 + gaps0 + (m.reserved0 : ℚ) + border ≤
      logicalW m - logicalW m / 4 - gaps2 - (m.reserved2 : ℚ) - border)
    (hy : logicalH m / 4 + gaps1 + (m.reserved1 : ℚ) + border ≤
      logicalH m - logicalH m / 4 - gaps3 - (m.reserved3 : ℚ) - border) :
    gaps0 + (m.reserved0 : ℚ) + border ≤ clampX m cx - logicalW m / 4 ∧
    clampX m cx - logicalW m / 4 ≤
      logicalW m - logicalW m / 2 - gaps2 - (m.reserved2 : ℚ) - border ∧
    gaps1 + (m.reserved1 : ℚ) + border ≤ clampY m cy - logicalH m / 4 ∧
    clampY m cy - logicalH m / 4 ≤
      logicalH m - logicalH m / 2 - gaps3 - (m.reserved3 : ℚ) - border := by
  unfold clampX clampY
  have h1 := le_max_left (logicalW m / 4 + gaps0 + (m.reserved0 : ℚ) + border)
    (min (logicalW m - logicalW m / 4 - gaps2 - (m.reserved2 : ℚ) - border)
      ((cx : ℚ)))
  have h2 := max_le hx
    (min_le_left (logicalW m - logicalW m / 4 - gaps2 - (m.reserved2 : ℚ) -
      border) ((cx : ℚ)))
  have h3 := le_max_left (logicalH m / 4 + gaps1 + (m.reserved1 : ℚ) + border)
    (min (logicalH m - logicalH m / 4 - gaps3 - (m.reserved3 : ℚ) - border)
      ((cy : ℚ)))
  have h4 := max_le hy
    (min_le_left (logicalH m - logicalH m / 4 - gaps3 - (m.reserved3 : ℚ) -
      border) ((cy : ℚ)))
  exact ⟨by linarith, by linarith, by linarith, by linarith⟩

/-- Witness for C3's amended theorem: a 1920×1080 scale-1 monitor with zero
reserved insets and the cursor at `(100, 100)`. -/
theorem C3_clamp_bounds_amended_witness :
    gaps0 + ((0 : Nat) : ℚ) + border ≤
      clampX ⟨0, 0, 1920, 1080, 1, 0, 0, 0, 0⟩ 100 -
        logicalW ⟨0, 0, 1920, 1080, 1, 0, 0, 0, 0⟩ / 4 ∧
    clampX ⟨0, 0, 1920, 1080, 1, 0, 0, 0, 0⟩ 100 -
        logicalW ⟨0, 0, 1920, 1080, 1, 0, 0, 0, 0⟩ / 4 ≤
      logicalW ⟨0, 0, 1920, 1080, 1, 0, 0, 0, 0⟩ -
        logicalW ⟨0, 0, 1920, 1080, 1, 0, 0, 0, 0⟩ / 2 - gaps2 -
        ((0 : Nat) : ℚ) - border ∧
    gaps1 + ((0 : Nat) : ℚ) + border ≤
      clampY ⟨0, 0, 1920, 1080, 1, 0, 0, 0, 0⟩ 100 -
        logicalH ⟨0, 0, 1920, 1080, 1, 0, 0, 0, 0⟩ / 4 ∧
    clampY ⟨0, 0, 1920, 1080, 1, 0, 0, 0, 0⟩ 100 -
        logicalH ⟨0, 0, 1920, 1080, 1, 0, 0, 0, 0⟩ / 4 ≤
      logicalH ⟨0, 0, 1920, 1080, 1, 0, 0, 0, 0⟩ -
        logicalH ⟨0, 0, 1920, 1080, 1, 0, 0, 0, 0⟩ / 2 - gaps3 -
        ((0 : Nat) : ℚ) - border :=
  C3_clamp_bounds_amended ⟨0, 0, 1920, 1080, 1, 0, 0, 0, 0⟩ 100 100
    (by norm_num) (by norm_num) (by norm_num [logicalW]) (by norm_num)
    (by norm_num [logicalH])
    (by norm_num [logicalW, gaps0, gaps2, border])
    (by norm_num [logicalH, gaps1, gaps3, border])

/-! ## Claim C4 — clamp scenario at the origin cursor -/

/-- Claim C4, counterexample: with the cursor at `(0, 0)` on a 1920×1080
scale-1 monitor with zero reserved insets, the clamped y is `284`, not the
claimed `274` — the program's top gap for the y axis is `gaps.1 = 10`
(gaps are `(20, 10, 20, 20)`), so `1080/4 + 10 + 0 + 4 = 284`. -/
theorem C4_clamp_scenario_cex :
    clampY ⟨0, 0, 1920, 1080, 1, 0, 0, 0, 0⟩ 0 = 284 ∧ (284 : ℚ) ≠ 274 := by
  constructor
  · norm_num [clampY, logicalH, gaps1, gaps3, border, max_def, min_def]
  · norm_num

/-- Claim C4, amended: in that scenario the clamp yields x = `504`
(`1920/4 + 20 + 0 + 4`) and y = `284` (`1080/4 + 10 + 0 + 4`). -/
theorem C4_clamp_scenario_amended :
    clampX ⟨0, 0, 1920, 1080, 1, 0, 0, 0, 0⟩ 0 = 504 ∧
    clampY ⟨0, 0, 1920, 1080, 1, 0, 0, 0, 0⟩ 0 = 284 := by
  constructor
  · norm_num [clampX, logicalW, gaps0, gaps2, border, max_def, min_def]
  · norm_num [clampY, logicalH, gaps1, gaps3, border, max_def, min_def]

/-! ## Claim C5 — window-mode cancellation cleanup -/

/-- Claim C5, confirmed: when the window-mode selector returns the
cancellation result `None`, the effect trace still ends with the config
reload and the submap reset, contains no rasterization or clipboard
invocation and no notification, and the function returns `Ok(())`. -/
theorem C5_window_cancellation :
    screenshot .window none =
      ([.setKeyword "general:col.inactive_border" 4294967295,
        .setKeyword "general:col.active_border" 4294967295,
        .setKeyword "decoration:rounding" 0,
        .setKeyword "decoration:dim_inactive" 0,
        .setKeyword "decoration:inactive_opacity" 1,
        .submap "empty", .reloadConfig, .submap "reset"], .ok ()) ∧
    Effect.reloadConfig ∈ (screenshot .window none).1 ∧
    Effect.submap "reset" ∈ (screenshot .window none).1 ∧
    (screenshot .window none).1.all
      (fun e => !( e.isCapture || e.isNotify)) = true ∧
    (screenshot .window none).2 = .ok () := by
  decide

/-! ## Claim C6 — geometry parse errors -/

/-- Claim C6, confirmed: `from_str` rejects inputs with fewer than four
whitespace-separated fields with `WrongArgumentsCount`, and on exactly four
fields it reports `ParseArgument i` for the first field `i` (in order
x, y, w, h) that fails its numeric parse. -/
theorem C6_parse_errors (s : List Char) :
    ((splitWs s).length < 4 → from_str s = .error .WrongArgumentsCount) ∧
    (∀ a b c d, splitWs s = [a, b, c, d] →
      (parseI32 a = none → from_str s = .error (.ParseArgument 0)) ∧
      (∀ x, parseI32 a = some x → parseI32 b = none →
        from_str s = .error (.ParseArgument 1)) ∧
      (∀ x y, parseI32 a = some x → parseI32 b = some y → parseU32 c = none →
        from_str s = .error (.ParseArgument 2)) ∧
      (∀ x y w, parseI32 a = some x → parseI32 b = some y →
        parseU32 c = some w → parseU32 d = none →
        from_str s = .error (.ParseArgument 3))) := by
  constructor
  · intro hlen
    rw [from_str, parseFields_wrong_count (by omega)]
  · intro a b c d hsplit
    refine ⟨fun ha => ?_, fun x ha hb => ?_, fun x y ha hb hc => ?_,
      fun x y w ha hb hc hd => ?_⟩
    · rw [from_str, hsplit]; simp [parseFields, ha]
    · rw [from_str, hsplit]; simp [parseFields, ha, hb]
    · rw [from_str, hsplit]; simp [parseFields, ha, hb, hc]
    · rw [from_str, hsplit]; simp [parseFields, ha, hb, hc, hd]

/-- Witness for C6 at three concrete inputs: too few fields, a bad first
field, and a bad third field. -/
theorem C6_parse_errors_witness :
    from_str ("1 2".data) = .error .WrongArgumentsCount ∧
    from_str ("a 2 3 4".data) = .error (.ParseArgument 0) ∧
    from_str ("1 2 x 4".data) = .error (.ParseArgument 2) := by
  refine ⟨(C6_parse_errors ("1 2".data)).1 (by decide), ?_, ?_⟩
  · exact ((C6_parse_errors ("a 2 3 4".data)).2 ['a'] ['2'] ['3'] ['4']
      (by decide)).1 (by decide)
  · exact ((C6_parse_errors ("1 2 x 4".data)).2 ['1'] ['2'] ['x'] ['4']
      (by decide)).2.2.1 1 2 (by decide) (by decide) (by decide)

/-! ## Claim C7 — toggling an already-floating window -/

/-- Claim C7, confirmed: when the active window is already floating,
`toggle_float` issues exactly the single `ToggleFloating` dispatch — no
resize and no move — regardless of the centering flag, the monitor and the
cursor. -/
theorem C7_already_floating (center : Bool) (w : Client) (m : MonitorState)
    (cursor : Int × Int) (hf : w.floating = true) :
    toggle_float center (some w) m cursor = [.toggleFloating] := by
  simp [toggle_float, hf]

/-- Witness for C7 on a concrete floating window. -/
theorem C7_already_floating_witness :
    toggle_float false (some ⟨true⟩) ⟨0, 0, 1920, 1080, 1, 0, 0, 0, 0⟩
      (5, 5) = [.toggleFloating] :=
  C7_already_floating false ⟨true⟩ ⟨0, 0, 1920, 1080, 1, 0, 0, 0, 0⟩
    (5, 5) rfl

/-! ## Claim C8 — centering mode -/

/-- Claim C8, confirmed: with the center flag on a tiled window, the issued
dispatches resize to half the logical monitor size and move to the quarter
point of the logical monitor size (each value issued through the dispatch
API's `as i16` cast), for every cursor position and without the cursor
influencing the result. -/
theorem C8_centering (w : Client) (m : MonitorState) (c1 c2 : Int × Int)
    (hf : w.floating = false) :
    toggle_float true (some w) m c1 =
      [.toggleFloating,
       .resizeActive (toI16 (logicalW m / 2)) (toI16 (logicalH m / 2)),
       .moveActive (toI16 (logicalW m / 4)) (toI16 (logicalH m / 4))] ∧
    toggle_float true (some w) m c1 = toggle_float true (some w) m c2 := by
  constructor <;> simp [toggle_float, hf]

/-- Witness for C8 on a concrete tiled window and two cursor positions. -/
theorem C8_centering_witness :
    toggle_float true (some ⟨false⟩) ⟨0, 0, 1920, 1080, 1, 0, 0, 0, 0⟩
        (3, 4) =
      [.toggleFloating,
       .resizeActive (toI16 (logicalW ⟨0, 0, 1920, 1080, 1, 0, 0, 0, 0⟩ / 2))
         (toI16 (logicalH ⟨0, 0, 1920, 1080, 1, 0, 0, 0, 0⟩ / 2)),
       .moveActive (toI16 (logicalW ⟨0, 0, 1920, 1080, 1, 0, 0, 0, 0⟩ / 4))
         (toI16 (logicalH ⟨0, 0, 1920, 1080, 1, 0, 0, 0, 0⟩ / 4))] ∧
    toggle_float true (some ⟨false⟩) ⟨0, 0, 1920, 1080, 1, 0, 0, 0, 0⟩
        (3, 4) =
      toggle_float true (some ⟨false⟩) ⟨0, 0, 1920, 1080, 1, 0, 0, 0, 0⟩
        (999, 2) :=
  C8_centering ⟨false⟩ ⟨0, 0, 1920, 1080, 1, 0, 0, 0, 0⟩ (3, 4) (999, 2) rfl

/-! ## Claim C9 — display selector -/

/-- Claim C9, counterexample: with an extreme (but type-valid) scale of
`2⁻¹⁷`, the logical size `65535 / 2⁻¹⁷ = 8589803520` rounds to a value that
does not fit in `u32`, so the `as u32` cast saturates and the returned width
is `4294967295`, **not** the physical size divided by the scale rounded to
the nearest integer. -/
theorem C9_display_saturation_cex :
    grab_display ⟨0, 0, 65535, 65535, 1 / 131072, 0, 0, 0, 0⟩ =
      some ⟨0, 0, 4294967295, 4294967295⟩ ∧
    roundQ (((65535 : Nat) : ℚ) / (1 / 131072)) = 8589803520 ∧
    (4294967295 : Nat) ≠ 8589803520 := by
  have hq : (((65535 : Nat) : ℚ) / (1 / 131072)) = 8589803520 := by norm_num
  have hr : roundQ (((65535 : Nat) : ℚ) / (1 / 131072)) = 8589803520 := by
    rw [roundQ_nonneg_eq _ (by rw [hq]; norm_num), hq, round_eq]
    norm_num
  refine ⟨?_, hr, by norm_num⟩
  rw [grab_display]
  dsimp only
  rw [hr]
  decide

/-- Claim C9, amended: the display selector always returns `Some`, with the
monitor's physical position unscaled; **provided the rounded logical size
fits in `u32`** (no saturation — true of every realistic scale), each size
component is the physical size divided by the scale rounded to the nearest
integer, i.e. it differs from the exact quotient by at most `1/2`. -/
theorem C9_display_selector_amended (m : MonitorState) (hs : 0 < m.scale)
    (hw : roundQ ((m.width : ℚ) / m.scale) ≤ 4294967295)
    (hh : roundQ ((m.height : ℚ) / m.scale) ≤ 4294967295) :
    grab_display m =
      some ⟨m.x, m.y, (roundQ ((m.width : ℚ) / m.scale)).toNat,
        (roundQ ((m.height : ℚ) / m.scale)).toNat⟩ ∧
    |((roundQ ((m.width : ℚ) / m.scale)).toNat : ℚ) -
      (m.width : ℚ) / m.scale| ≤ 1 / 2 ∧
    |((roundQ ((m.height : ℚ) / m.scale)).toNat : ℚ) -
      (m.height : ℚ) / m.scale| ≤ 1 / 2 := by
  have hqw : (0 : ℚ) ≤ (m.width : ℚ) / m.scale :=
    div_nonneg (Nat.cast_nonneg _) hs.le
  have hqh : (0 : ℚ) ≤ (m.height : ℚ) / m.scale :=
    div_nonneg (Nat.cast_nonneg _) hs.le
  refine ⟨?_, ?_, ?_⟩
  · rw [grab_display, satU32_of_le hw, satU32_of_le hh]
  · have h1 : ((roundQ ((m.width : ℚ) / m.scale)).toNat : ℤ) =
        roundQ ((m.width : ℚ) / m.scale) :=
      Int.toNat_of_nonneg (roundQ_nonneg _ hqw)
    have h2 : (((roundQ ((m.width : ℚ) / m.scale)).toNat : Nat) : ℚ) =
        ((roundQ ((m.width : ℚ) / m.scale) : ℤ) : ℚ) := by exact_mod_cast h1
    rw [h2, roundQ_nonneg_eq _ hqw, abs_sub_comm]
    exact abs_sub_round _
  · have h1 : ((roundQ ((m.height : ℚ) / m.scale)).toNat : ℤ) =
        roundQ ((m.height : ℚ) / m.scale) :=
      Int.toNat_of_nonneg (roundQ_nonneg _ hqh)
    have h2 : (((roundQ ((m.height : ℚ) / m.scale)).toNat : Nat) : ℚ) =
        ((roundQ ((m.height : ℚ) / m.scale) : ℤ) : ℚ) := by exact_mod_cast h1
    rw [h2, roundQ_nonneg_eq _ hqh, abs_sub_comm]
    exact abs_sub_round _

/-- Witness for C9's amended theorem on a 1920×1080 scale-1 monitor. -/
theorem C9_display_selector_amended_witness :
    grab_display ⟨7, 9, 1920, 1080, 1, 0, 0, 0, 0⟩ =
      some ⟨7, 9, (roundQ (((1920 : Nat) : ℚ) / 1)).toNat,
        (roundQ (((1080 : Nat) : ℚ) / 1)).toNat⟩ ∧
    |((roundQ (((1920 : Nat) : ℚ) / 1)).toNat : ℚ) -
      ((1920 : Nat) : ℚ) / 1| ≤ 1 / 2 ∧
    |((roundQ (((1080 : Nat) : ℚ) / 1)).toNat : ℚ) -
      ((1080 : Nat) : ℚ) / 1| ≤ 1 / 2 :=
  C9_display_selector_amended ⟨7, 9, 1920, 1080, 1, 0, 0, 0, 0⟩
    (by norm_num)
    (by rw [roundQ_nonneg_eq _ (by norm_num), round_eq]; norm_num)
    (by rw [roundQ_nonneg_eq _ (by norm_num), round_eq]; norm_num)

/-! ## Claim C10 — region selector shrinks by one pixel per side -/

/-- Claim C10, confirmed: when the region-selection tool's output parses to
a rectangle with width > 2 and height > 2, the region selector returns that
rectangle shrunk by one pixel on each side: x and y increased by 1, width
and height decreased by 2. -/
theorem C10_region_shrink (out : List Char) (g : Geometry) (hne : out ≠ [])
    (hparse : from_str out = .ok g) (hw : 2 < g.width) (hh : 2 < g.height) :
    grab_region out =
      .ok (some ⟨g.x + 1, g.y + 1, g.width - 2, g.height - 2⟩) := by
  simp only [grab_region, isEmpty_false_of_ne_nil hne, Bool.false_eq_true,
    if_false, hparse]
  rw [if_pos ⟨hw, hh⟩]

/-- Witness for C10 on the tool output `"10 20 30 40"`. -/
theorem C10_region_shrink_witness :
    grab_region ("10 20 30 40".data) = .ok (some ⟨11, 21, 28, 38⟩) :=
  C10_region_shrink ("10 20 30 40".data) ⟨10, 20, 30, 40⟩ (by decide)
    (by decide) (by decide) (by decide)

end HyprlandUtils
